import Mathlib

/-!
Shallow embedding of the virtual list positioning engine of
demongodYY/virtual-list, translated from the source file `src/List.tsx`.
Pixel quantities and scroll fractions are rationals; item indices are
integers (the located index may equal the item count, which denotes the
synthetic ghost sentinel).  The helper modules `utils/itemUtil.ts` and
`utils/algorithmUtil.ts` are imported by `List.tsx` but their sources are
not part of this snapshot; those functions are modelled from the
specification, as noted in their individual doc comments.  Everything that
lives in `List.tsx` itself is translated directly from that source.
-/

namespace VirtualList

/-- Key of a rendered item as produced by `getIndexKey` in `List.tsx`: the
synthetic end-of-list sentinel (`GHOST_ITEM_KEY`), a real item key, or the
`null` that `getItemKey` returns for an index with no item.  Items are
modelled by their stable keys, so the key extractor is the identity. -/
inductive ItemKey where
  | ghost
  | nullKey
  | key (k : ℤ)
deriving DecidableEq

/-- Scroll geometry of the container: current offset, total content height
and viewport height. -/
structure ScrollMeasure where
  scrollTop : ℚ
  scrollHeight : ℚ
  clientHeight : ℚ
deriving DecidableEq

/-- Modelled from the spec: `getScrollPercentage` of `utils/itemUtil.ts`
(imported by `List.tsx` but absent from `src/`).  Spec 4.1: the fraction is
`scrollOffset / max(1, scrollableHeight - viewportHeight)` clamped to
`[0,1]`, and a zero or negative difference (content fits the viewport)
returns `0` instead of dividing. -/
def getScrollPercentage (m : ScrollMeasure) : ℚ :=
  if m.scrollHeight - m.clientHeight ≤ 0 then 0
  else min 1 (max 0 (m.scrollTop / max 1 (m.scrollHeight - m.clientHeight)))

/-- Modelled from the spec: `getLocationItem` of `utils/itemUtil.ts` (absent
from `src/`).  Spec 4.2: `locatedItemIndex = floor(fraction * n)` clamped to
`[0, n]` (`n` denotes the ghost sentinel), and the offset fraction is the
fractional remainder within the equal-width slice of that item. -/
def getLocationItem (scrollPtg : ℚ) (itemCount : ℕ) : ℤ × ℚ :=
  let raw := scrollPtg * itemCount
  let itemIndex := max 0 (min (itemCount : ℤ) ⌊raw⌋)
  (itemIndex, raw - itemIndex)

/-- Output record of `getRangeIndex`. -/
structure RangeIndexResult where
  itemIndex : ℤ
  itemOffsetPtg : ℚ
  startIndex : ℤ
  endIndex : ℤ
deriving DecidableEq

/-- Modelled from the spec: `getRangeIndex` of `utils/itemUtil.ts` (absent
from `src/`).  Spec 4.2, with the window-sizing policy pinned down by the
design note of spec 9 and the concrete scenario of spec 8: the window
extends a buffer of `ceil(fraction * capacity)` items before and
`ceil((1 - fraction) * capacity)` items after the located index (half the
capacity on each side at mid scroll, at least the visible capacity in
total), clamped to `[0, n - 1]`. -/
def getRangeIndex (scrollPtg : ℚ) (itemCount : ℕ) (visibleCount : ℤ) : RangeIndexResult :=
  let li := getLocationItem scrollPtg itemCount
  let beforeCount := ⌈scrollPtg * (visibleCount : ℚ)⌉
  let afterCount := ⌈(1 - scrollPtg) * (visibleCount : ℚ)⌉
  { itemIndex := li.1
    itemOffsetPtg := li.2
    startIndex := max 0 (li.1 - beforeCount)
    endIndex := min ((itemCount : ℤ) - 1) (li.1 + afterCount) }

/-- Visible item capacity, from `onScroll` in `List.tsx`:
`Math.ceil(height / itemHeight)`. -/
def visibleCount (height itemHeight : ℚ) : ℤ := ⌈height / itemHeight⌉

/-- `getIndexKey` from `List.tsx`: the index equal to the collection length
yields the ghost sentinel key, an index with no item yields the `null`
key, and any other index yields the key of the item at that index. -/
def getIndexKey (dataSource : List ℤ) (index : ℤ) : ItemKey :=
  if index = (dataSource.length : ℤ) then .ghost
  else if index < 0 then .nullKey
  else
    match dataSource.get? index.toNat with
    | some k => .key k
    | none => .nullKey

/-- Modelled from the spec: `findListDiffIndex` of `utils/algorithmUtil.ts`
(absent from `src/`).  Spec 4.5 step 2: the first index, scanning from the
front, at which the two collections diverge by key; when one list is an
initial segment of the other the divergence is at the shorter length. -/
def findListDiffIndex : List ℤ → List ℤ → ℕ
  | a :: as, b :: bs => if a = b then findListDiffIndex as bs + 1 else 0
  | _, _ => 0

/-- Modelled from the spec: `getIndexByStartLoc` of `utils/algorithmUtil.ts`
(absent from `src/`).  Spec 4.6: candidate offsets are ordered by expanding
distance from the current offset, alternating between the two sides while
both remain in range, then continuing sequentially on the side that is not
yet exhausted. -/
def getIndexByStartLoc (lo hi start : ℚ) (index : ℕ) : ℚ :=
  let beforeCount := start - lo
  let afterCount := hi - start
  let balanceCount := 2 * min beforeCount afterCount
  if (index : ℚ) ≤ balanceCount then
    if index % 2 = 1 then start + ((index / 2 : ℕ) : ℚ) + 1
    else start - ((index / 2 : ℕ) : ℚ)
  else if afterCount < beforeCount then
    start - ((index : ℚ) - afterCount)
  else
    start + ((index : ℚ) - beforeCount)

/-- Sum of the ledger heights of the items with indices in `[lo, hi)`. -/
def sumHeightsRange (getKey : ℤ → ItemKey) (heights : ItemKey → ℚ) (lo hi : ℤ) : ℚ :=
  ((List.range (hi - lo).toNat).map fun j => heights (getKey (lo + (j : ℤ)))).sum

/-- Modelled from the spec: `getItemRelativeTop` of `utils/itemUtil.ts`
(absent from `src/`).  Spec 4.4: the viewport-relative top of the located
item anchors the proportional position `fraction * viewportHeight`, shifted
up by the intra-item pixel offset `offsetFraction * ledgerHeight(item)`. -/
def getItemRelativeTop (itemIndex : ℤ) (itemOffsetPtg : ℚ) (heights : ItemKey → ℚ)
    (scrollPtg : ℚ) (clientHeight : ℚ) (getKey : ℤ → ItemKey) : ℚ :=
  scrollPtg * clientHeight - itemOffsetPtg * heights (getKey itemIndex)

/-- Modelled from the spec: `getItemAbsoluteTop` of `utils/itemUtil.ts`
(absent from `src/`): the top of the located item relative to the content
origin is the scroll offset plus its viewport-relative top. -/
def getItemAbsoluteTop (itemIndex : ℤ) (itemOffsetPtg : ℚ) (heights : ItemKey → ℚ)
    (scrollTop scrollPtg clientHeight : ℚ) (getKey : ℤ → ItemKey) : ℚ :=
  scrollTop + getItemRelativeTop itemIndex itemOffsetPtg heights scrollPtg clientHeight getKey

/-- Modelled from the spec: `getCompareItemRelativeTop` of
`utils/itemUtil.ts` (absent from `src/`).  Spec 4.4: walk the ledger from
the located index to the target index, subtracting heights when walking
backward and adding them when walking forward. -/
def getCompareItemRelativeTop (locatedItemRelativeTop : ℚ)
    (locatedItemIndex compareItemIndex : ℤ)
    (getKey : ℤ → ItemKey) (heights : ItemKey → ℚ) : ℚ :=
  if compareItemIndex ≤ locatedItemIndex then
    locatedItemRelativeTop - sumHeightsRange getKey heights compareItemIndex locatedItemIndex
  else
    locatedItemRelativeTop + sumHeightsRange getKey heights locatedItemIndex compareItemIndex

/-- The three-phase status of `ListState` in `List.tsx`. -/
inductive Status where
  | NONE
  | MEASURE_START
  | MEASURE_DONE
deriving DecidableEq

/-- `ListState` from `List.tsx` (the React component state). -/
structure ListState where
  status : Status
  scrollTop : Option ℚ
  itemIndex : ℤ
  itemOffsetPtg : ℚ
  startIndex : ℤ
  endIndex : ℤ
  startItemTop : ℚ
deriving DecidableEq

/-- The props read by the engine.  Elements of `dataSource` stand for their
stable keys, so `itemKey` extraction is the identity. -/
structure Props where
  dataSource : List ℤ
  height : Option ℚ
  itemHeight : ℚ
  disabled : Bool
deriving DecidableEq

/-- The argument record of the object form of `scrollTo` in `List.tsx`. -/
structure RelativeScroll where
  itemIndex : ℤ
  relativeTop : ℚ
deriving DecidableEq

/-- The component instance: the React state together with the mutable
instance fields of `List.tsx` (`itemElementHeights`, `cachedProps`,
`lockScroll`), the scroll offset and viewport height of the container
element, and the countdown of the pending double animation-frame unlock
chain armed by `scrollTo`. -/
structure Engine where
  state : ListState
  heights : ItemKey → ℚ
  cachedProps : Props
  lockScroll : Bool
  unlockFrames : ℕ
  containerScrollTop : ℚ
  clientHeight : ℚ

/-- `getElementScrollPercentage(listRef.current)` as used by `onScroll`: the
content height of the container is `dataSource.length * itemHeight` (the
`Filler` height set by `render`). -/
def elementScrollPtg (props : Props) (e : Engine) : ℚ :=
  getScrollPercentage
    { scrollTop := e.containerScrollTop
      scrollHeight := (props.dataSource.length : ℚ) * props.itemHeight
      clientHeight := e.clientHeight }

/-- `onScroll` from `List.tsx`: a no-op when the observed scroll offset
equals the last recorded one, when the scroll lock is held, or when
`disabled`; otherwise recomputes the located item and render window from
the current scroll fraction and enters `MEASURE_START`. -/
def onScroll (props : Props) (e : Engine) : Engine :=
  if some e.containerScrollTop = e.state.scrollTop ∨ e.lockScroll = true ∨
      props.disabled = true then e
  else
    let r := getRangeIndex (elementScrollPtg props e) props.dataSource.length
      (visibleCount (props.height.getD 0) props.itemHeight)
    { e with
      state := { e.state with
        status := .MEASURE_START
        scrollTop := some e.containerScrollTop
        itemIndex := r.itemIndex
        itemOffsetPtg := r.itemOffsetPtg
        startIndex := r.startIndex
        endIndex := r.endIndex } }

/-- `collectItemHeights` from `List.tsx`: record the measured height of
every item of the current render window, keeping earlier entries for keys
outside the window.  `measure` is the height reported by the rendering
surface for a mounted key. -/
def collectItemHeights (dataSource : List ℤ) (measure : ItemKey → ℚ)
    (startIndex endIndex : ℤ) (heights : ItemKey → ℚ) : ItemKey → ℚ :=
  fun k =>
    if (List.range (endIndex + 1 - startIndex).toNat).any
        (fun j => decide (getIndexKey dataSource (startIndex + (j : ℤ)) = k)) then
      measure k
    else heights k

/-- The `MEASURE_START` branch of `componentDidUpdate` in `List.tsx`:
collect the heights of the rendered window, compute the absolute top of the
located item, walk back to the top of the window, and settle into
`MEASURE_DONE` with the resulting `startItemTop`. -/
def measureBranch (props : Props) (measure : ItemKey → ℚ) (e : Engine) : Engine :=
  let heights1 := collectItemHeights props.dataSource measure
    e.state.startIndex e.state.endIndex e.heights
  let locatedItemTop := getItemAbsoluteTop e.state.itemIndex e.state.itemOffsetPtg heights1
    e.containerScrollTop (elementScrollPtg props e) e.clientHeight
    (getIndexKey props.dataSource)
  let startItemTop := locatedItemTop -
    sumHeightsRange (getIndexKey props.dataSource) heights1 e.state.startIndex e.state.itemIndex
  { e with
    heights := heights1
    state := { e.state with status := .MEASURE_DONE, startItemTop := startItemTop } }

/-- The compare item index chosen by the reconciliation branch of
`componentDidUpdate` in `List.tsx`: one less than the first divergence
index of the old and new collections, clamped up to `0` when that would be
negative. -/
def diffCompareIndex (props : Props) (e : Engine) : ℤ :=
  max 0 ((findListDiffIndex e.cachedProps.dataSource props.dataSource : ℤ) - 1)

/-- The viewport-relative top of the previously located item, recomputed by
the reconciliation branch of `componentDidUpdate` against the scroll
fraction of the old collection (content height of the old length). -/
def diffLocatedTop (props : Props) (e : Engine) : ℚ :=
  getItemRelativeTop e.state.itemIndex e.state.itemOffsetPtg e.heights
    (getScrollPercentage
      { scrollTop := e.state.scrollTop.getD 0
        scrollHeight := (e.cachedProps.dataSource.length : ℚ) * props.itemHeight
        clientHeight := e.clientHeight })
    e.clientHeight (getIndexKey e.cachedProps.dataSource)

/-- The Relative Scroll Target that the reconciliation branch of
`componentDidUpdate` in `List.tsx` passes to `scrollTo` when the collection
length changed. -/
def diffAnchorTarget (props : Props) (e : Engine) : RelativeScroll :=
  { itemIndex := diffCompareIndex props e
    relativeTop := getCompareItemRelativeTop (diffLocatedTop props e) e.state.itemIndex
      (diffCompareIndex props e) (getIndexKey e.cachedProps.dataSource) e.heights }

/-- The fixed data of one run of the `scrollTo` similarity search in
`List.tsx`. -/
structure SearchCtx where
  dataSource : List ℤ
  itemHeight : ℚ
  height : ℚ
  clientHeight : ℚ
  scrollHeight : ℚ
  heights : ItemKey → ℚ
  originScrollTop : ℚ
  compareItemIndex : ℤ
  compareItemRelativeTop : ℚ

/-- The best candidate tracked by the `scrollTo` search. -/
structure SearchBest where
  scrollTop : ℚ
  itemIndex : ℤ
  itemOffsetPtg : ℚ
  startIndex : ℤ
  endIndex : ℤ
deriving DecidableEq

/-- Accumulator of the `scrollTo` search loop: best similarity so far
(`none` models the initial `Number.MAX_VALUE`), best candidate so far,
consecutive miss counter and number of candidates visited. -/
structure SearchAcc where
  bestSimilarity : Option ℚ
  best : Option SearchBest
  missSimilarity : ℕ
  visited : ℕ
deriving DecidableEq

/-- The candidate scroll offset examined at step `i` of the search:
`getIndexByStartLoc(0, maxScrollTop, originScrollTop, i)`. -/
def candidateScrollTop (ctx : SearchCtx) (i : ℕ) : ℚ :=
  getIndexByStartLoc 0 (ctx.scrollHeight - ctx.clientHeight) ctx.originScrollTop i

/-- The scroll fraction of candidate `i`. -/
def candidatePtg (ctx : SearchCtx) (i : ℕ) : ℚ :=
  getScrollPercentage
    { scrollTop := candidateScrollTop ctx i
      scrollHeight := ctx.scrollHeight
      clientHeight := ctx.clientHeight }

/-- The render window of candidate `i`. -/
def candidateRange (ctx : SearchCtx) (i : ℕ) : RangeIndexResult :=
  getRangeIndex (candidatePtg ctx i) ctx.dataSource.length
    (visibleCount ctx.height ctx.itemHeight)

/-- The cheap window-membership rejection test of the search: does the
render window of candidate `i` contain the target item index. -/
def candidateInWindow (ctx : SearchCtx) (i : ℕ) : Bool :=
  decide ((candidateRange ctx i).startIndex ≤ ctx.compareItemIndex ∧
    ctx.compareItemIndex ≤ (candidateRange ctx i).endIndex)

/-- The viewport-relative top that candidate `i` gives the located item. -/
def candidateLocatedTop (ctx : SearchCtx) (i : ℕ) : ℚ :=
  getItemRelativeTop (candidateRange ctx i).itemIndex (candidateRange ctx i).itemOffsetPtg
    ctx.heights (candidatePtg ctx i) ctx.clientHeight (getIndexKey ctx.dataSource)

/-- The viewport-relative top that candidate `i` gives the target item. -/
def candidateCompareTop (ctx : SearchCtx) (i : ℕ) : ℚ :=
  getCompareItemRelativeTop (candidateLocatedTop ctx i) (candidateRange ctx i).itemIndex
    ctx.compareItemIndex (getIndexKey ctx.dataSource) ctx.heights

/-- The similarity score of candidate `i`: absolute difference between the
achieved and the requested relative top (lower is better). -/
def candidateSimilarity (ctx : SearchCtx) (i : ℕ) : ℚ :=
  |candidateCompareTop ctx i - ctx.compareItemRelativeTop|

/-- The candidate record stored when candidate `i` improves the best
score. -/
def candidateBest (ctx : SearchCtx) (i : ℕ) : SearchBest :=
  { scrollTop := candidateScrollTop ctx i
    itemIndex := (candidateRange ctx i).itemIndex
    itemOffsetPtg := (candidateRange ctx i).itemOffsetPtg
    startIndex := (candidateRange ctx i).startIndex
    endIndex := (candidateRange ctx i).endIndex }

/-- The strict improvement test `similarity < bestSimilarity`, where `none`
models the initial `Number.MAX_VALUE`. -/
def improves (bestSimilarity : Option ℚ) (similarity : ℚ) : Bool :=
  match bestSimilarity with
  | none => true
  | some b => decide (similarity < b)

/-- One iteration of the `scrollTo` search loop in `List.tsx`: skip a
candidate whose window misses the target index, otherwise either record a
new best (resetting the miss counter) or count a miss. -/
def searchStep (ctx : SearchCtx) (i : ℕ) (acc : SearchAcc) : SearchAcc :=
  if candidateInWindow ctx i then
    if improves acc.bestSimilarity (candidateSimilarity ctx i) then
      { bestSimilarity := some (candidateSimilarity ctx i)
        best := some (candidateBest ctx i)
        missSimilarity := 0
        visited := acc.visited + 1 }
    else
      { acc with missSimilarity := acc.missSimilarity + 1, visited := acc.visited + 1 }
  else
    { acc with visited := acc.visited + 1 }

/-- The `scrollTo` search loop of `List.tsx`: process up to `r` further
candidates starting at step index `i`, breaking as soon as the consecutive
miss counter exceeds `10`. -/
def searchGo (ctx : SearchCtx) : ℕ → ℕ → SearchAcc → SearchAcc
  | _, 0, acc => acc
  | i, r + 1, acc =>
    if (searchStep ctx i acc).missSimilarity > 10 then searchStep ctx i acc
    else searchGo ctx (i + 1) r (searchStep ctx i acc)

/-- The initial accumulator of the search. -/
def initAcc : SearchAcc :=
  { bestSimilarity := none, best := none, missSimilarity := 0, visited := 0 }

/-- Number of loop iterations of `for (let i = 0; i < maxScrollTop; i += 1)`:
the number of naturals below `maxScrollTop`. -/
def ctxNumCandidates (ctx : SearchCtx) : ℕ :=
  ⌈ctx.scrollHeight - ctx.clientHeight⌉.toNat

/-- The completed search run of the object branch of `scrollTo`. -/
def searchResult (ctx : SearchCtx) : SearchAcc :=
  searchGo ctx 0 (ctxNumCandidates ctx) initAcc

/-- The search context built by the object branch of `scrollTo` from the
props, the argument and the instance. -/
def mkSearchCtx (props : Props) (arg : RelativeScroll) (e : Engine) : SearchCtx :=
  { dataSource := props.dataSource
    itemHeight := props.itemHeight
    height := props.height.getD 0
    clientHeight := e.clientHeight
    scrollHeight := (props.dataSource.length : ℚ) * props.itemHeight
    heights := e.heights
    originScrollTop := e.state.scrollTop.getD 0
    compareItemIndex := arg.itemIndex
    compareItemRelativeTop := arg.relativeTop }

/-- The object branch of `scrollTo` in `List.tsx`: run the bounded search;
when a best candidate exists, apply its scroll offset and window, arm the
scroll lock and schedule its release after two animation frames; otherwise
change nothing. -/
def scrollToRelative (props : Props) (arg : RelativeScroll) (e : Engine) : Engine :=
  match (searchResult (mkSearchCtx props arg e)).best with
  | none => e
  | some b =>
    { e with
      lockScroll := true
      unlockFrames := 2
      containerScrollTop := b.scrollTop
      state := { e.state with
        status := .MEASURE_START
        scrollTop := some b.scrollTop
        itemIndex := b.itemIndex
        itemOffsetPtg := b.itemOffsetPtg
        startIndex := b.startIndex
        endIndex := b.endIndex } }

/-- `scrollTo` from `List.tsx`: a numeric argument only assigns the scroll
offset of the container element; an object argument runs the similarity
search. -/
def scrollTo (props : Props) (arg : ℚ ⊕ RelativeScroll) (e : Engine) : Engine :=
  match arg with
  | .inl x => { e with containerScrollTop := x }
  | .inr rs => scrollToRelative props rs e

/-- The reconciliation branch of `componentDidUpdate` in `List.tsx`:
refresh the ledger over the current window, compute the Relative Scroll
Target anchored on the compare item, and hand it to `scrollTo`. -/
def reconcileBranch (props : Props) (measure : ItemKey → ℚ) (e : Engine) : Engine :=
  let e1 := { e with
    heights := collectItemHeights props.dataSource measure
      e.state.startIndex e.state.endIndex e.heights }
  scrollTo props (.inr (diffAnchorTarget props e1)) e1

/-- `componentDidUpdate` from `List.tsx`: skipped entirely when `disabled`
(before `cachedProps` is refreshed); otherwise runs the measure phase when
the state is `MEASURE_START`, then the diff-anchor reconciliation when the
collection length changed and `height` is truthy, and finally refreshes
`cachedProps`.  The reconciliation reads only state fields the measure
phase leaves unchanged, so sequencing the two branches is faithful to the
source. -/
def componentDidUpdate (props : Props) (measure : ItemKey → ℚ) (e : Engine) : Engine :=
  if props.disabled = true then e
  else
    let e1 := if e.state.status = Status.MEASURE_START then measureBranch props measure e else e
    let e2 :=
      if e1.cachedProps.dataSource.length ≠ props.dataSource.length ∧
          props.height.getD 0 ≠ 0 then
        reconcileBranch props measure e1
      else e1
    { e2 with cachedProps := props }

/-- One animation-frame boundary: counts down the double
`requestAnimationFrame` chain armed by `scrollTo`; the lock is dropped when
the second frame fires. -/
def frameStep (e : Engine) : Engine :=
  match e.unlockFrames with
  | 0 => e
  | 1 => { e with unlockFrames := 0, lockScroll := false }
  | n + 2 => { e with unlockFrames := n + 1 }

/-- What `render` of `List.tsx` mounts: whether the scroll handling of the
virtual engine is attached, the first rendered index, and the rendered
items (given by their keys). -/
structure RenderOutput where
  usesVirtualEngine : Bool
  renderedStartIndex : ℕ
  renderedItems : List ℤ
deriving DecidableEq

/-- `render` from `List.tsx`: with no `height`, or content that fits the
height, the whole collection is rendered from index 0 with no scroll
handling attached; otherwise the window `[startIndex, endIndex]` of the
state is rendered with the virtual engine attached. -/
def render (props : Props) (e : Engine) : RenderOutput :=
  match props.height with
  | none =>
    { usesVirtualEngine := false, renderedStartIndex := 0, renderedItems := props.dataSource }
  | some h =>
    if (props.dataSource.length : ℚ) * props.itemHeight ≤ h then
      { usesVirtualEngine := false, renderedStartIndex := 0, renderedItems := props.dataSource }
    else
      { usesVirtualEngine := true
        renderedStartIndex := e.state.startIndex.toNat
        renderedItems := (props.dataSource.drop e.state.startIndex.toNat).take
          (e.state.endIndex + 1 - e.state.startIndex).toNat }

/-! ### Basic lemmas about the percentage mapper and the range locator -/

lemma getScrollPercentage_nonneg (m : ScrollMeasure) : 0 ≤ getScrollPercentage m := by
  unfold getScrollPercentage
  split
  · exact le_refl 0
  · exact le_min zero_le_one (le_max_left 0 _)

lemma getScrollPercentage_le_one (m : ScrollMeasure) : getScrollPercentage m ≤ 1 := by
  unfold getScrollPercentage
  split
  · exact zero_le_one
  · exact min_le_left 1 _

lemma elementScrollPtg_nonneg (props : Props) (e : Engine) : 0 ≤ elementScrollPtg props e :=
  getScrollPercentage_nonneg _

lemma getRangeIndex_itemIndex_def (p : ℚ) (n : ℕ) (v : ℤ) :
    (getRangeIndex p n v).itemIndex = max 0 (min (n : ℤ) ⌊p * (n : ℚ)⌋) := rfl

lemma getRangeIndex_startIndex_def (p : ℚ) (n : ℕ) (v : ℤ) :
    (getRangeIndex p n v).startIndex =
      max 0 (max 0 (min (n : ℤ) ⌊p * (n : ℚ)⌋) - ⌈p * (v : ℚ)⌉) := rfl

lemma getRangeIndex_endIndex_def (p : ℚ) (n : ℕ) (v : ℤ) :
    (getRangeIndex p n v).endIndex =
      min ((n : ℤ) - 1) (max 0 (min (n : ℤ) ⌊p * (n : ℚ)⌋) + ⌈(1 - p) * (v : ℚ)⌉) := rfl

lemma floor_raw_nonneg {p : ℚ} {n : ℕ} (hp0 : 0 ≤ p) : (0 : ℤ) ≤ ⌊p * (n : ℚ)⌋ :=
  Int.le_floor.mpr (by simpa using mul_nonneg hp0 (by positivity))

lemma floor_raw_lt {p : ℚ} {n : ℕ} (hp1 : p < 1) (hn : 1 ≤ n) : ⌊p * (n : ℚ)⌋ < (n : ℤ) := by
  rw [Int.floor_lt]
  push_cast
  have hn0 : (0 : ℚ) < (n : ℚ) := by exact_mod_cast Nat.lt_of_lt_of_le Nat.zero_lt_one hn
  calc p * (n : ℚ) < 1 * (n : ℚ) := mul_lt_mul_of_pos_right hp1 hn0
    _ = (n : ℚ) := one_mul _

lemma ceil_before_nonneg {p : ℚ} {v : ℤ} (hp0 : 0 ≤ p) (hv : 1 ≤ v) :
    (0 : ℤ) ≤ ⌈p * (v : ℚ)⌉ :=
  Int.ceil_nonneg (mul_nonneg hp0 (by exact_mod_cast le_trans zero_le_one hv))

lemma ceil_after_nonneg {p : ℚ} {v : ℤ} (hp1 : p ≤ 1) (hv : 1 ≤ v) :
    (0 : ℤ) ≤ ⌈(1 - p) * (v : ℚ)⌉ :=
  Int.ceil_nonneg (mul_nonneg (by linarith) (by exact_mod_cast le_trans zero_le_one hv))

/-- The sandwich invariant of the range locator, for fractions strictly
below 1: the located item lies inside the render window. -/
lemma rangeIndex_sandwich (p : ℚ) (n : ℕ) (v : ℤ) (hp0 : 0 ≤ p) (hp1 : p < 1)
    (hn : 1 ≤ n) (hv : 1 ≤ v) :
    (getRangeIndex p n v).startIndex ≤ (getRangeIndex p n v).itemIndex ∧
    (getRangeIndex p n v).itemIndex ≤ (getRangeIndex p n v).endIndex := by
  have hf0 : (0 : ℤ) ≤ ⌊p * (n : ℚ)⌋ := floor_raw_nonneg hp0
  have hfn : ⌊p * (n : ℚ)⌋ < (n : ℤ) := floor_raw_lt hp1 hn
  have hb0 : (0 : ℤ) ≤ ⌈p * (v : ℚ)⌉ := ceil_before_nonneg hp0 hv
  have ha0 : (0 : ℤ) ≤ ⌈(1 - p) * (v : ℚ)⌉ := ceil_after_nonneg hp1.le hv
  rw [getRangeIndex_startIndex_def, getRangeIndex_itemIndex_def, getRangeIndex_endIndex_def]
  omega

/-- The render window bounds of the range locator, for any fraction in
`[0, 1]` (fraction 1 included). -/
lemma rangeIndex_bounds (p : ℚ) (n : ℕ) (v : ℤ) (hp0 : 0 ≤ p) (hp1 : p ≤ 1)
    (hn : 1 ≤ n) (hv : 1 ≤ v) :
    0 ≤ (getRangeIndex p n v).startIndex ∧
    (getRangeIndex p n v).startIndex ≤ (getRangeIndex p n v).endIndex ∧
    (getRangeIndex p n v).endIndex ≤ (n : ℤ) - 1 := by
  have hn1 : (1 : ℤ) ≤ (n : ℤ) := by exact_mod_cast hn
  rcases lt_or_eq_of_le hp1 with hlt | heq
  · have hsw := rangeIndex_sandwich p n v hp0 hlt hn hv
    refine ⟨?_, le_trans hsw.1 hsw.2, ?_⟩
    · rw [getRangeIndex_startIndex_def]; omega
    · rw [getRangeIndex_endIndex_def]; omega
  · subst heq
    have hf : ⌊(1 : ℚ) * (n : ℚ)⌋ = (n : ℤ) := by
      rw [one_mul]; exact_mod_cast Int.floor_natCast n
    have hb : ⌈(1 : ℚ) * (v : ℚ)⌉ = v := by
      rw [one_mul]; exact Int.ceil_intCast v
    have ha : ⌈(1 - (1 : ℚ)) * (v : ℚ)⌉ = 0 := by norm_num
    rw [getRangeIndex_startIndex_def, getRangeIndex_endIndex_def, hf, hb, ha]
    omega

/-! ### Lemmas about the bounded similarity search of `scrollTo` -/

lemma searchStep_visited (ctx : SearchCtx) (i : ℕ) (acc : SearchAcc) :
    (searchStep ctx i acc).visited = acc.visited + 1 := by
  unfold searchStep
  split
  · split <;> rfl
  · rfl

lemma searchStep_miss_le (ctx : SearchCtx) (i : ℕ) (acc : SearchAcc) :
    (searchStep ctx i acc).missSimilarity ≤ acc.missSimilarity + 1 := by
  unfold searchStep
  split
  · split
    · exact Nat.zero_le _
    · exact Nat.le_refl _
  · exact Nat.le_succ _

lemma searchStep_notInWindow (ctx : SearchCtx) (i : ℕ) (acc : SearchAcc)
    (h : candidateInWindow ctx i = false) :
    searchStep ctx i acc = { acc with visited := acc.visited + 1 } := by
  unfold searchStep
  rw [h]
  simp

lemma searchGo_visited_le (ctx : SearchCtx) :
    ∀ (r i : ℕ) (acc : SearchAcc), (searchGo ctx i r acc).visited ≤ acc.visited + r := by
  intro r
  induction r with
  | zero => intro i acc; simp [searchGo]
  | succ k ih =>
    intro i acc
    simp only [searchGo]
    split
    · rw [searchStep_visited]; omega
    · have h1 := ih (i + 1) (searchStep ctx i acc)
      have h2 := searchStep_visited ctx i acc
      omega

lemma searchGo_exit (ctx : SearchCtx) :
    ∀ (r i : ℕ) (acc : SearchAcc), acc.missSimilarity ≤ 10 →
      (searchGo ctx i r acc).visited = acc.visited + r ∨
      (searchGo ctx i r acc).missSimilarity = 11 := by
  intro r
  induction r with
  | zero => intro i acc _; left; simp [searchGo]
  | succ k ih =>
    intro i acc hm
    simp only [searchGo]
    split
    · rename_i hbr
      right
      have h2 := searchStep_miss_le ctx i acc
      omega
    · rename_i hbr
      have hm2 : (searchStep ctx i acc).missSimilarity ≤ 10 := by omega
      rcases ih (i + 1) (searchStep ctx i acc) hm2 with hc | hc
      · left
        have h2 := searchStep_visited ctx i acc
        omega
      · right; exact hc

lemma searchGo_allMiss (ctx : SearchCtx) :
    ∀ (r i : ℕ) (acc : SearchAcc),
      (∀ j, i ≤ j → j < i + r → candidateInWindow ctx j = false) →
      acc.best = none → acc.missSimilarity = 0 →
      (searchGo ctx i r acc).best = none := by
  intro r
  induction r with
  | zero => intro i acc _ hb _; simpa [searchGo] using hb
  | succ k ih =>
    intro i acc hall hb hm
    have hw : candidateInWindow ctx i = false := hall i (le_refl i) (by omega)
    have hs := searchStep_notInWindow ctx i acc hw
    simp only [searchGo, hs]
    split
    · rename_i hgt
      exfalso
      have hgt2 : acc.missSimilarity > 10 := hgt
      omega
    · exact ih (i + 1) _ (fun j hj1 hj2 => hall j (by omega) (by omega)) hb hm

lemma rangeIndex_startIndex_nonneg (p : ℚ) (n : ℕ) (v : ℤ) :
    0 ≤ (getRangeIndex p n v).startIndex :=
  le_max_left 0 _

lemma rangeIndex_endIndex_le (p : ℚ) (n : ℕ) (v : ℤ) :
    (getRangeIndex p n v).endIndex ≤ (n : ℤ) - 1 :=
  min_le_left _ _

lemma outOfBounds_notInWindow (ctx : SearchCtx)
    (h : ctx.compareItemIndex < 0 ∨ (ctx.dataSource.length : ℤ) ≤ ctx.compareItemIndex) :
    ∀ j, candidateInWindow ctx j = false := by
  intro j
  unfold candidateInWindow
  rw [decide_eq_false_iff_not]
  rintro ⟨h1, h2⟩
  have hs : (0 : ℤ) ≤ (candidateRange ctx j).startIndex :=
    rangeIndex_startIndex_nonneg (candidatePtg ctx j) ctx.dataSource.length
      (visibleCount ctx.height ctx.itemHeight)
  have he : (candidateRange ctx j).endIndex ≤ (ctx.dataSource.length : ℤ) - 1 :=
    rangeIndex_endIndex_le (candidatePtg ctx j) ctx.dataSource.length
      (visibleCount ctx.height ctx.itemHeight)
  omega

lemma search_noBest (ctx : SearchCtx)
    (h : ∀ j, j < ctxNumCandidates ctx → candidateInWindow ctx j = false) :
    (searchResult ctx).best = none := by
  unfold searchResult
  exact searchGo_allMiss ctx (ctxNumCandidates ctx) 0 initAcc
    (fun j _ hj2 => h j (by omega)) rfl rfl

/-! ### Lemmas about the diff index of the reconciler -/

lemma findListDiffIndex_agree :
    ∀ (l1 l2 : List ℤ) (i : ℕ), i < findListDiffIndex l1 l2 → l1.get? i = l2.get? i := by
  intro l1
  induction l1 with
  | nil =>
    intro l2 i h
    cases l2 <;> simp [findListDiffIndex] at h
  | cons a as ih =>
    intro l2 i h
    cases l2 with
    | nil => simp [findListDiffIndex] at h
    | cons b bs =>
      by_cases hab : a = b
      · subst hab
        have hred : findListDiffIndex (a :: as) (a :: bs) = findListDiffIndex as bs + 1 := by
          simp [findListDiffIndex]
        rw [hred] at h
        cases i with
        | zero => rfl
        | succ j =>
          have := ih bs j (by omega)
          simpa using this
      · have hred : findListDiffIndex (a :: as) (b :: bs) = 0 := by
          simp [findListDiffIndex, hab]
        rw [hred] at h
        exact absurd h (Nat.not_lt_zero i)

lemma findListDiffIndex_ne :
    ∀ (l1 l2 : List ℤ), l1.length ≠ l2.length →
      l1.get? (findListDiffIndex l1 l2) ≠ l2.get? (findListDiffIndex l1 l2) := by
  intro l1
  induction l1 with
  | nil =>
    intro l2 hlen
    cases l2 with
    | nil => simp at hlen
    | cons b bs => simp [findListDiffIndex]
  | cons a as ih =>
    intro l2 hlen
    cases l2 with
    | nil => simp [findListDiffIndex]
    | cons b bs =>
      by_cases hab : a = b
      · subst hab
        have hred : findListDiffIndex (a :: as) (a :: bs) = findListDiffIndex as bs + 1 := by
          simp [findListDiffIndex]
        rw [hred]
        have hlen2 : as.length ≠ bs.length := by simpa using hlen
        simpa using ih bs hlen2
      · have hred : findListDiffIndex (a :: as) (b :: bs) = 0 := by
          simp [findListDiffIndex, hab]
        rw [hred]
        simp [hab]

/-! ### Concrete inputs used by witnesses and counterexamples -/

def w1props : Props :=
  { dataSource := [1, 2], height := some 30, itemHeight := 15, disabled := false }

def w1state : ListState :=
  { status := .NONE, scrollTop := none, itemIndex := 0, itemOffsetPtg := 0,
    startIndex := 0, endIndex := 0, startItemTop := 0 }

def w1engine : Engine :=
  { state := w1state, heights := fun _ => 0, cachedProps := w1props, lockScroll := false,
    unlockFrames := 0, containerScrollTop := 0, clientHeight := 20 }

def cx2prevProps : Props :=
  { dataSource := [10, 20, 30], height := some 100, itemHeight := 15, disabled := false }

def cx2props : Props :=
  { dataSource := [10, 20, 99, 30], height := some 100, itemHeight := 15, disabled := false }

def cx2state : ListState :=
  { status := .MEASURE_DONE, scrollTop := some 0, itemIndex := 0, itemOffsetPtg := 0,
    startIndex := 0, endIndex := 2, startItemTop := 0 }

def cx2engine : Engine :=
  { state := cx2state, heights := fun _ => 15, cachedProps := cx2prevProps, lockScroll := false,
    unlockFrames := 0, containerScrollTop := 0, clientHeight := 100 }

def c3ctx : SearchCtx :=
  { dataSource := [0, 1, 2, 3, 4, 5, 6, 7, 8, 9], itemHeight := 15, height := 100,
    clientHeight := 100, scrollHeight := 150, heights := fun _ => 0,
    originScrollTop := 0, compareItemIndex := 0, compareItemRelativeTop := -1000 }

def w3ctx : SearchCtx :=
  { dataSource := [1, 2], itemHeight := 15, height := 20, clientHeight := 20,
    scrollHeight := 30, heights := fun _ => 0, originScrollTop := 0,
    compareItemIndex := -1, compareItemRelativeTop := 0 }

def w4props : Props :=
  { dataSource := [1, 2], height := some 20, itemHeight := 15, disabled := false }

def w4arg : RelativeScroll := { itemIndex := 5, relativeTop := 0 }

def w4state : ListState :=
  { status := .NONE, scrollTop := some 0, itemIndex := 0, itemOffsetPtg := 0,
    startIndex := 0, endIndex := 0, startItemTop := 0 }

def w4engine : Engine :=
  { state := w4state, heights := fun _ => 0, cachedProps := w4props, lockScroll := false,
    unlockFrames := 0, containerScrollTop := 0, clientHeight := 20 }

def w5props : Props :=
  { dataSource := [1, 2], height := some 20, itemHeight := 15, disabled := false }

def w5arg : RelativeScroll := { itemIndex := 0, relativeTop := 0 }

def w5state : ListState :=
  { status := .NONE, scrollTop := some 0, itemIndex := 0, itemOffsetPtg := 0,
    startIndex := 0, endIndex := 0, startItemTop := 0 }

def w5engineA : Engine :=
  { state := w5state, heights := fun _ => 0, cachedProps := w5props, lockScroll := false,
    unlockFrames := 0, containerScrollTop := 0, clientHeight := 20 }

def w5engineB : Engine := { w5engineA with lockScroll := true }

def w5engineC : Engine := w5engineA

def c7prevProps : Props :=
  { dataSource := [], height := some 100, itemHeight := 15, disabled := true }

def c7props : Props :=
  { dataSource := [5], height := some 100, itemHeight := 15, disabled := true }

def c7state : ListState :=
  { status := .NONE, scrollTop := none, itemIndex := 0, itemOffsetPtg := 0,
    startIndex := 0, endIndex := 0, startItemTop := 0 }

def c7engine : Engine :=
  { state := c7state, heights := fun _ => 0, cachedProps := c7prevProps, lockScroll := false,
    unlockFrames := 0, containerScrollTop := 0, clientHeight := 100 }

def w9props : Props :=
  { dataSource := [7, 8, 9], height := none, itemHeight := 15, disabled := false }

def w9state : ListState :=
  { status := .NONE, scrollTop := none, itemIndex := 0, itemOffsetPtg := 0,
    startIndex := 0, endIndex := 0, startItemTop := 0 }

def w9engine : Engine :=
  { state := w9state, heights := fun _ => 0, cachedProps := w9props, lockScroll := false,
    unlockFrames := 0, containerScrollTop := 0, clientHeight := 100 }

/-! ### Claim theorems -/

/-- C1 (amended): for every scroll fraction in `[0, 1]`, total item count
at least 1 and visible capacity at least 1, the range locator output keeps
`0 ≤ startIndex ≤ endIndex ≤ n - 1`, and for every fraction strictly below 1
it also keeps `startIndex ≤ locatedItemIndex ≤ endIndex`; accordingly, any
state produced by a non-skipped `onScroll` whose scroll fraction is strictly
below 1 leaves Idle and satisfies
`renderWindowStart ≤ locatedItemIndex ≤ renderWindowEnd`.  At fraction
exactly 1 the located index is the ghost sentinel `n`, which exceeds
`endIndex ≤ n - 1` (see the counterexample). -/
theorem range_locator_invariant_amended :
    (∀ (p : ℚ) (n : ℕ) (v : ℤ), 0 ≤ p → p ≤ 1 → 1 ≤ n → 1 ≤ v →
      (0 ≤ (getRangeIndex p n v).startIndex ∧
        (getRangeIndex p n v).startIndex ≤ (getRangeIndex p n v).endIndex ∧
        (getRangeIndex p n v).endIndex ≤ (n : ℤ) - 1) ∧
      (p < 1 →
        (getRangeIndex p n v).startIndex ≤ (getRangeIndex p n v).itemIndex ∧
        (getRangeIndex p n v).itemIndex ≤ (getRangeIndex p n v).endIndex)) ∧
    (∀ (props : Props) (e : Engine),
      ¬(some e.containerScrollTop = e.state.scrollTop) → e.lockScroll = false →
      props.disabled = false → elementScrollPtg props e < 1 →
      1 ≤ props.dataSource.length →
      1 ≤ visibleCount (props.height.getD 0) props.itemHeight →
      (onScroll props e).state.status ≠ Status.NONE ∧
      (onScroll props e).state.startIndex ≤ (onScroll props e).state.itemIndex ∧
      (onScroll props e).state.itemIndex ≤ (onScroll props e).state.endIndex) := by
  constructor
  · intro p n v hp0 hp1 hn hv
    exact ⟨rangeIndex_bounds p n v hp0 hp1 hn hv,
      fun hlt => rangeIndex_sandwich p n v hp0 hlt hn hv⟩
  · intro props e h1 h2 h3 h4 h5 h6
    have hcond : ¬(some e.containerScrollTop = e.state.scrollTop ∨ e.lockScroll = true ∨
        props.disabled = true) := by
      rintro (hc | hc | hc)
      · exact h1 hc
      · rw [h2] at hc; exact Bool.false_ne_true hc
      · rw [h3] at hc; exact Bool.false_ne_true hc
    unfold onScroll
    rw [if_neg hcond]
    refine ⟨fun hh => Status.noConfusion hh, ?_, ?_⟩
    · exact (rangeIndex_sandwich _ _ _ (elementScrollPtg_nonneg props e) h4 h5 h6).1
    · exact (rangeIndex_sandwich _ _ _ (elementScrollPtg_nonneg props e) h4 h5 h6).2

set_option maxRecDepth 100000 in
/-- C1 witness: the amended invariant evaluated at fraction one half with
1000 items and capacity 20, and at a concrete scroll event. -/
theorem range_locator_invariant_amended_witness :
    ((getRangeIndex (1 / 2) 1000 20).startIndex ≤ (getRangeIndex (1 / 2) 1000 20).itemIndex ∧
      (getRangeIndex (1 / 2) 1000 20).itemIndex ≤ (getRangeIndex (1 / 2) 1000 20).endIndex) ∧
    ((onScroll w1props w1engine).state.startIndex ≤ (onScroll w1props w1engine).state.itemIndex ∧
      (onScroll w1props w1engine).state.itemIndex ≤ (onScroll w1props w1engine).state.endIndex) :=
  ⟨(range_locator_invariant_amended.1 (1 / 2) 1000 20 (by norm_num) (by norm_num) (by norm_num)
      (by norm_num)).2 (by norm_num),
    (range_locator_invariant_amended.2 w1props w1engine (by with_unfolding_all decide) rfl rfl
      (by with_unfolding_all decide) (by with_unfolding_all decide)
      (by with_unfolding_all decide)).2.1,
    (range_locator_invariant_amended.2 w1props w1engine (by with_unfolding_all decide) rfl rfl
      (by with_unfolding_all decide) (by with_unfolding_all decide)
      (by with_unfolding_all decide)).2.2⟩

set_option maxRecDepth 100000 in
/-- C1 counterexample: at scroll fraction exactly 1 with one item and
capacity 1, the located index is the sentinel 1 while the window end is 0,
so `locatedItemIndex ≤ endIndex` fails for a fraction inside `[0, 1]`. -/
theorem range_locator_invariant_cex :
    ¬((getRangeIndex 1 1 1).itemIndex ≤ (getRangeIndex 1 1 1).endIndex) := by
  with_unfolding_all decide

/-- C2 (amended): on a collection length change the reconciler finds the
first index at which the two collections diverge by key (scanning from the
front: keys agree strictly before the diff index, and differ at it whenever
the lengths differ), and emits a Relative Scroll Target whose `itemIndex`
is one less than that divergence index (clamped up to 0 when the divergence
is at index 0) and whose relative top is the computed relative top of that
compare item walked from the located item. -/
theorem diff_anchor_emission_amended :
    (∀ (l1 l2 : List ℤ),
      (∀ i, i < findListDiffIndex l1 l2 → l1.get? i = l2.get? i) ∧
      (l1.length ≠ l2.length →
        l1.get? (findListDiffIndex l1 l2) ≠ l2.get? (findListDiffIndex l1 l2))) ∧
    (∀ (props : Props) (e : Engine),
      (diffAnchorTarget props e).itemIndex =
        max 0 ((findListDiffIndex e.cachedProps.dataSource props.dataSource : ℤ) - 1) ∧
      (diffAnchorTarget props e).relativeTop =
        getCompareItemRelativeTop (diffLocatedTop props e) e.state.itemIndex
          (diffAnchorTarget props e).itemIndex (getIndexKey e.cachedProps.dataSource)
          e.heights) :=
  ⟨fun l1 l2 => ⟨findListDiffIndex_agree l1 l2, findListDiffIndex_ne l1 l2⟩,
    fun _ _ => ⟨rfl, rfl⟩⟩

/-- C2 witness: the divergence characterization evaluated on the concrete
lists `[1]` and `[1, 2]`, whose diff index is 1. -/
theorem diff_anchor_emission_witness :
    (([1] : List ℤ).get? 0 = ([1, 2] : List ℤ).get? 0) ∧
    ¬(([1] : List ℤ).get? (findListDiffIndex [1] [1, 2]) =
      ([1, 2] : List ℤ).get? (findListDiffIndex [1] [1, 2])) :=
  ⟨(diff_anchor_emission_amended.1 [1] [1, 2]).1 0 (by decide),
    (diff_anchor_emission_amended.1 [1] [1, 2]).2 (by decide)⟩

/-- C2 counterexample: inserting key 99 at index 2 of `[10, 20, 30]` makes
the first divergence index 2, yet the emitted Relative Scroll Target
carries item index 1, not the divergence index. -/
theorem diff_anchor_emission_cex :
    findListDiffIndex cx2prevProps.dataSource cx2props.dataSource = 2 ∧
    (diffAnchorTarget cx2props cx2engine).itemIndex = 1 := by
  constructor
  · decide
  · decide

/-- C3 (amended): the `scrollTo` search visits at most
`ceil(maxScrollOffset)` candidates (one per integer step index below
`maxScrollOffset`) and terminates, exiting either by exhausting the
candidate index range or with the consecutive miss counter at 11 (the
source breaks once the counter strictly exceeds the boundary 10); for a
target item index outside `[0, itemCount)` no candidate passes the window
test, so the search returns no match. -/
theorem scroll_to_search_bounded_amended :
    ∀ ctx : SearchCtx,
      (searchResult ctx).visited ≤ ctxNumCandidates ctx ∧
      ((searchResult ctx).visited = ctxNumCandidates ctx ∨
        (searchResult ctx).missSimilarity = 11) ∧
      ((ctx.compareItemIndex < 0 ∨ (ctx.dataSource.length : ℤ) ≤ ctx.compareItemIndex) →
        (searchResult ctx).best = none) := by
  intro ctx
  refine ⟨?_, ?_, ?_⟩
  · have h := searchGo_visited_le ctx (ctxNumCandidates ctx) 0 initAcc
    simpa [searchResult, initAcc] using h
  · have h := searchGo_exit ctx (ctxNumCandidates ctx) 0 initAcc (by decide)
    simpa [searchResult, initAcc] using h
  · intro h
    exact search_noBest ctx (fun j _ => outOfBounds_notInWindow ctx h j)

/-- C3 witness: on a concrete search context whose target index is -1, the
search returns no match. -/
theorem scroll_to_search_bounded_witness :
    (w3ctx.compareItemIndex < 0 ∨ (w3ctx.dataSource.length : ℤ) ≤ w3ctx.compareItemIndex) ∧
    (searchResult w3ctx).best = none :=
  ⟨Or.inl (by decide), (scroll_to_search_bounded_amended w3ctx).2.2 (Or.inl (by decide))⟩

set_option maxRecDepth 100000 in
/-- C3 counterexample: on a concrete context, after 11 visited candidates
the consecutive miss counter stands at 10, where the claim says the search
exits; yet the full search visits a 12th candidate and only then exits with
the counter at 11, far from exhausting the 50-candidate range. -/
theorem scroll_to_search_bounded_cex :
    (searchGo c3ctx 0 11 initAcc).missSimilarity = 10 ∧
    (searchResult c3ctx).visited = 12 ∧
    (searchResult c3ctx).missSimilarity = 11 ∧
    12 < ctxNumCandidates c3ctx := by
  refine ⟨by with_unfolding_all decide, by with_unfolding_all decide,
    by with_unfolding_all decide, by with_unfolding_all decide⟩

/-- C4: when no candidate examined by the search has a render window
containing the target item index, `scrollTo` changes nothing at all: the
state, the ledger, the lock and the container scroll offset are all left
in place (a silent no-op). -/
theorem unreachable_target_silent_noop :
    ∀ (props : Props) (arg : RelativeScroll) (e : Engine),
      (∀ j, j < ctxNumCandidates (mkSearchCtx props arg e) →
        candidateInWindow (mkSearchCtx props arg e) j = false) →
      scrollToRelative props arg e = e := by
  intro props arg e h
  have hb : (searchResult (mkSearchCtx props arg e)).best = none := search_noBest _ h
  unfold scrollToRelative
  rw [hb]

set_option maxRecDepth 100000 in
/-- C4 witness: a scroll-to request for the out-of-bounds index 5 of a
2-item list leaves the engine untouched. -/
theorem unreachable_target_silent_noop_witness :
    scrollToRelative w4props w4arg w4engine = w4engine :=
  unreachable_target_silent_noop w4props w4arg w4engine (by with_unfolding_all decide)

/-- C5: a scroll event is a no-op when the observed offset equals the last
recorded one and while the re-entry lock is held; when the search applies a
best candidate the lock is armed and survives the first animation-frame
boundary, being released only after the second. -/
theorem scroll_event_noop_and_reentry_lock :
    (∀ (props : Props) (e : Engine), some e.containerScrollTop = e.state.scrollTop →
      onScroll props e = e) ∧
    (∀ (props : Props) (e : Engine), e.lockScroll = true → onScroll props e = e) ∧
    (∀ (props : Props) (arg : RelativeScroll) (e : Engine),
      (searchResult (mkSearchCtx props arg e)).best.isSome = true →
      (scrollToRelative props arg e).lockScroll = true ∧
      (frameStep (scrollToRelative props arg e)).lockScroll = true ∧
      (frameStep (frameStep (scrollToRelative props arg e))).lockScroll = false) := by
  refine ⟨?_, ?_, ?_⟩
  · intro props e h
    unfold onScroll
    rw [if_pos (Or.inl h)]
  · intro props e h
    unfold onScroll
    rw [if_pos (Or.inr (Or.inl h))]
  · intro props arg e h
    obtain ⟨b, hb⟩ := Option.isSome_iff_exists.mp h
    unfold scrollToRelative
    rw [hb]
    exact ⟨rfl, rfl, rfl⟩

set_option maxRecDepth 100000 in
/-- C5 witness: a concrete unchanged-offset scroll event, a concrete locked
scroll event, and a concrete applied search whose lock is gone only after
two frame boundaries. -/
theorem scroll_event_noop_and_reentry_lock_witness :
    onScroll w5props w5engineA = w5engineA ∧
    onScroll w5props w5engineB = w5engineB ∧
    (scrollToRelative w5props w5arg w5engineC).lockScroll = true ∧
    (frameStep (frameStep (scrollToRelative w5props w5arg w5engineC))).lockScroll = false :=
  ⟨scroll_event_noop_and_reentry_lock.1 w5props w5engineA (by with_unfolding_all decide),
    scroll_event_noop_and_reentry_lock.2.1 w5props w5engineB rfl,
    (scroll_event_noop_and_reentry_lock.2.2 w5props w5arg w5engineC
      (by with_unfolding_all decide)).1,
    (scroll_event_noop_and_reentry_lock.2.2 w5props w5arg w5engineC
      (by with_unfolding_all decide)).2.2⟩

/-- C6: the scroll fraction is the offset divided by
`max(1, scrollableHeight - viewportHeight)` clamped to `[0, 1]`, and a zero
or negative difference yields 0 with no division. -/
theorem scroll_fraction_formula :
    ∀ m : ScrollMeasure,
      getScrollPercentage m =
        (if m.scrollHeight - m.clientHeight ≤ 0 then 0
          else min 1 (max 0 (m.scrollTop / max 1 (m.scrollHeight - m.clientHeight)))) ∧
      (m.scrollHeight - m.clientHeight ≤ 0 → getScrollPercentage m = 0) ∧
      0 ≤ getScrollPercentage m ∧ getScrollPercentage m ≤ 1 := by
  intro m
  refine ⟨rfl, ?_, getScrollPercentage_nonneg m, getScrollPercentage_le_one m⟩
  intro h
  unfold getScrollPercentage
  rw [if_pos h]

/-- C6 witness: content smaller than the viewport yields fraction 0. -/
theorem scroll_fraction_formula_witness :
    getScrollPercentage { scrollTop := 5, scrollHeight := 10, clientHeight := 20 } = 0 :=
  (scroll_fraction_formula { scrollTop := 5, scrollHeight := 10, clientHeight := 20 }).2.1
    (by norm_num)

/-- C7 (amended): when `disabled` is true every scroll event and every
update pass performs no recomputation and leaves the engine fully
unchanged; in particular the cached props are NOT refreshed to the latest
props (the update pass returns before the `cachedProps` assignment, which
only tracks the latest props while `disabled` is false). -/
theorem disabled_freeze_amended :
    ∀ (props : Props) (measure : ItemKey → ℚ) (e : Engine), props.disabled = true →
      onScroll props e = e ∧ componentDidUpdate props measure e = e := by
  intro props m e h
  constructor
  · unfold onScroll
    rw [if_pos (Or.inr (Or.inr h))]
  · unfold componentDidUpdate
    rw [if_pos h]

/-- C7 witness: a concrete disabled update pass and scroll event leave the
engine unchanged. -/
theorem disabled_freeze_amended_witness :
    onScroll c7props c7engine = c7engine ∧
    componentDidUpdate c7props (fun _ => 0) c7engine = c7engine :=
  disabled_freeze_amended c7props (fun _ => 0) c7engine rfl

/-- C7 counterexample: a disabled update pass with changed props keeps the
stale cached props, so the cached props are not updated to the latest
props as the claim states. -/
theorem disabled_cached_props_cex :
    c7props.disabled = true ∧
    (componentDidUpdate c7props (fun _ => 0) c7engine).cachedProps ≠ c7props := by
  refine ⟨rfl, by decide⟩

set_option maxRecDepth 100000 in
/-- C8: with 1000 items, assumed item height 15 and viewport height 300,
the visible capacity is 20, and at scroll fraction one half the range
locator returns located index 500 with render window exactly
`[490, 510]`. -/
theorem concrete_scenario_1000_items :
    visibleCount 300 15 = 20 ∧
    getRangeIndex (1 / 2) 1000 20 =
      { itemIndex := 500, itemOffsetPtg := 0, startIndex := 490, endIndex := 510 } := by
  refine ⟨by with_unfolding_all decide, by with_unfolding_all decide⟩

/-- C9: with no viewport height the whole collection is rendered starting
at index 0, without the virtual engine attached, and the output does not
depend on the positioning state at all. -/
theorem no_height_renders_all :
    ∀ (props : Props) (e e2 : Engine), props.height = none →
      render props e =
        { usesVirtualEngine := false, renderedStartIndex := 0,
          renderedItems := props.dataSource } ∧
      render props e = render props e2 := by
  intro props e e2 h
  constructor
  · unfold render
    rw [h]
  · unfold render
    rw [h]

/-- C9 witness: a concrete heightless list renders all three items from
index 0 with the engine skipped. -/
theorem no_height_renders_all_witness :
    render w9props w9engine =
      { usesVirtualEngine := false, renderedStartIndex := 0, renderedItems := [7, 8, 9] } :=
  (no_height_renders_all w9props w9engine w9engine rfl).1

/-- C10: the numeric form of `scrollTo` assigns exactly the given offset to
the container and changes nothing else: state, ledger, cached props, lock
and pending unlock frames are all untouched. -/
theorem scroll_to_offset_only_sets_offset :
    ∀ (props : Props) (x : ℚ) (e : Engine),
      scrollTo props (Sum.inl x) e = { e with containerScrollTop := x } ∧
      (scrollTo props (Sum.inl x) e).containerScrollTop = x ∧
      (scrollTo props (Sum.inl x) e).state = e.state ∧
      (scrollTo props (Sum.inl x) e).heights = e.heights ∧
      (scrollTo props (Sum.inl x) e).cachedProps = e.cachedProps ∧
      (scrollTo props (Sum.inl x) e).lockScroll = e.lockScroll ∧
      (scrollTo props (Sum.inl x) e).unlockFrames = e.unlockFrames :=
  fun _ _ _ => ⟨rfl, rfl, rfl, rfl, rfl, rfl, rfl⟩

end VirtualList
